import Mathlib

/-!
Verification of the lottery-assistant signal engine.

Shallow embedding of the core decision logic of the repository:
* `calculate_ev`            — src/ev_calculator.py, `EVCalculator.calculate_ev`
* `calculate_buy_signal`    — src/buy_signal.py, `BuySignal.calculate_buy_signal`
  (with its helpers `get_ev_tier`, `calculate_rollover_momentum`,
  `calculate_growth_velocity`, `calculate_composite_score`)
* `check_threshold`         — src/threshold_alert.py, `ThresholdAlert.check_threshold`

Python floats are modelled as `ℚ`, Python ints as `ℤ`, `None` as `Option`.
A Python call that raises (ZeroDivisionError) is modelled as `Option.none`.
Game identifiers (Python string dict keys) are modelled as the inductive
`GameId`, whose constructors are the game keys appearing in the source's
lookup tables, plus `other` for any further string.  String formatting (the
`reasons` / `message` fields) and logging are omitted: they carry no
decision logic.
-/

/-- Game identifiers: the string keys appearing in the source's lookup
tables (`rollover_breakpoints` in buy_signal.py, `rollover_increments` and
`reset_thresholds` in threshold_alert.py, the game list in
verify_threshold_system.py), plus `other` for any further string id. -/
inductive GameId where
  | mega_millions
  | powerball
  | lucky_day_lotto_midday
  | lucky_day_lotto_evening
  | lotto
  | pick_3
  | pick_4
  | hot_wins
  | other (name : String)
deriving Repr, DecidableEq

/-- Result record of `EVCalculator.calculate_ev` (the dict built at
ev_calculator.py lines 66-79). -/
structure EVResult where
  jackpot : ℚ
  after_tax_jackpot : ℚ
  odds : ℤ
  ticket_cost : ℚ
  primary_ev : ℚ
  secondary_ev : ℚ
  total_ev : ℚ
  net_ev : ℚ
  ev_percentage : ℚ
  break_even_jackpot : ℚ
  is_positive_ev : Bool
  is_recommended : Bool
deriving Repr, DecidableEq

/-- `EVCalculator.calculate_ev` (ev_calculator.py lines 31-83).
`include_secondary`, `tax_rate`, `lump_sum_factor` are the instance
settings read in `__init__` (defaults `True`, `0.37`, `0.61`);
`ev_threshold_env` is the `EV_THRESHOLD` environment value read for
`is_recommended` at line 78 (default `-0.20`).  The function returns
`none` exactly when Python would raise ZeroDivisionError: at line 49 when
`odds = 0`, or at line 64 when `(1 - tax_rate) * lump_sum_factor = 0`.
There is no other failure path and no `InvalidConfig` anywhere in the
source. -/
def calculate_ev (include_secondary : Bool) (tax_rate lump_sum_factor ev_threshold_env : ℚ)
    (jackpot : ℚ) (odds : ℤ) (ticket_cost : ℚ) (secondary_prize_ev : Option ℚ) :
    Option EVResult :=
  if odds = 0 ∨ (1 - tax_rate) * lump_sum_factor = 0 then
    none
  else
    let after_tax_jackpot := jackpot * (1 - tax_rate) * lump_sum_factor
    let primary_ev := after_tax_jackpot / (odds : ℚ)
    -- line 52: `secondary_prize_ev if (self.include_secondary and secondary_prize_ev)
    -- else 0` — Python truthiness, `None` and `0` are falsy.
    let secondary_ev :=
      match secondary_prize_ev with
      | some s => if include_secondary ∧ s ≠ 0 then s else 0
      | none => 0
    let total_ev := primary_ev + secondary_ev
    let net_ev := total_ev - ticket_cost
    -- line 61: `(net_ev / ticket_cost) * 100 if ticket_cost > 0 else 0`
    let ev_percentage := if 0 < ticket_cost then net_ev / ticket_cost * 100 else 0
    let break_even_jackpot :=
      (ticket_cost - secondary_ev) * (odds : ℚ) / ((1 - tax_rate) * lump_sum_factor)
    some
      { jackpot := jackpot
        after_tax_jackpot := after_tax_jackpot
        odds := odds
        ticket_cost := ticket_cost
        primary_ev := primary_ev
        secondary_ev := secondary_ev
        total_ev := total_ev
        net_ev := net_ev
        ev_percentage := ev_percentage
        break_even_jackpot := break_even_jackpot
        is_positive_ev := decide (0 < net_ev)
        is_recommended := decide (ev_threshold_env ≤ net_ev) }

/-- EV tier record of `BuySignal.get_ev_tier` (buy_signal.py lines 44-71);
the `description` string is omitted. -/
structure EvTier where
  tier : ℕ
  label : String
deriving Repr, DecidableEq

/-- `BuySignal.get_ev_tier` (buy_signal.py lines 44-71). -/
def get_ev_tier (ev_percentage : ℚ) : EvTier :=
  if -20 < ev_percentage then
    { tier := 1, label := "Value Opportunity" }
  else if -40 ≤ ev_percentage then
    { tier := 2, label := "Watchlist" }
  else
    { tier := 3, label := "Not Recommended" }

/-- The `rollover_breakpoints` table set in `BuySignal.__init__`
(buy_signal.py lines 30-35), with the `{'75p': 5, '95p': 10}` default of
line 84: the pair is (75th percentile, 95th percentile). -/
def rollover_breakpoints (game_id : GameId) : ℤ × ℤ :=
  if game_id = GameId.mega_millions then (8, 15)
  else if game_id = GameId.powerball then (7, 14)
  else if game_id = GameId.lucky_day_lotto_midday then (3, 6)
  else if game_id = GameId.lucky_day_lotto_evening then (3, 6)
  else (5, 10)

/-- Momentum record of `BuySignal.calculate_rollover_momentum`
(buy_signal.py lines 98-104). -/
structure MomentumInfo where
  momentum : String
  score : ℚ
  rollover_count : ℤ
  breakpoint_75p : ℤ
  breakpoint_95p : ℤ
deriving Repr, DecidableEq

/-- `BuySignal.calculate_rollover_momentum` (buy_signal.py lines 73-104). -/
def calculate_rollover_momentum (game_id : GameId) (rollover_count : ℤ) : MomentumInfo :=
  let p75 := (rollover_breakpoints game_id).1
  let p95 := (rollover_breakpoints game_id).2
  if p95 ≤ rollover_count then
    { momentum := "strong", score := 1, rollover_count := rollover_count,
      breakpoint_75p := p75, breakpoint_95p := p95 }
  else if p75 ≤ rollover_count then
    { momentum := "moderate", score := 6/10, rollover_count := rollover_count,
      breakpoint_75p := p75, breakpoint_95p := p95 }
  else
    { momentum := "weak", score := 2/10, rollover_count := rollover_count,
      breakpoint_75p := p75, breakpoint_95p := p95 }

/-- Growth record of `BuySignal.calculate_growth_velocity`
(buy_signal.py lines 117-148). -/
structure GrowthInfo where
  growth : String
  score : ℚ
  growth_amount : ℚ
  growth_percent : ℚ
deriving Repr, DecidableEq

/-- `BuySignal.calculate_growth_velocity` (buy_signal.py lines 106-148). -/
def calculate_growth_velocity (current_jackpot previous_jackpot : ℚ) : GrowthInfo :=
  if previous_jackpot ≤ 0 then
    { growth := "unknown", score := 1/2, growth_amount := 0, growth_percent := 0 }
  else
    let growth_amount := current_jackpot - previous_jackpot
    let growth_percent := growth_amount / previous_jackpot * 100
    if 5 < growth_percent then
      { growth := "strong", score := 1, growth_amount := growth_amount,
        growth_percent := growth_percent }
    else if 2 < growth_percent then
      { growth := "moderate", score := 6/10, growth_amount := growth_amount,
        growth_percent := growth_percent }
    else if 0 < growth_percent then
      { growth := "weak", score := 3/10, growth_amount := growth_amount,
        growth_percent := growth_percent }
    else
      { growth := "none", score := 0, growth_amount := growth_amount,
        growth_percent := growth_percent }

/-- Composite-score record of `BuySignal.calculate_composite_score`
(buy_signal.py lines 193-199). -/
structure CompositeScore where
  buy_score : ℚ
  signal_class : String
  ev_score : ℚ
  momentum_score : ℚ
  growth_score : ℚ
deriving Repr, DecidableEq

/-- `BuySignal.calculate_composite_score` (buy_signal.py lines 150-199),
with the `scoring_weights` `{ev: 0.6, momentum: 0.3, growth: 0.1}` of
lines 38-42. -/
def calculate_composite_score (ev_percentage momentum_score growth_score : ℚ) :
    CompositeScore :=
  let ev_score : ℚ := if -20 < ev_percentage then 1 else if -40 ≤ ev_percentage then 1/2 else 0
  let buy_score := 6/10 * ev_score + 3/10 * momentum_score + 1/10 * growth_score
  let signal_class :=
    if 8/10 ≤ buy_score then "Strong Opportunity"
    else if 6/10 ≤ buy_score then "Moderate Opportunity"
    else if 4/10 ≤ buy_score then "Watchlist"
    else "Skip / Poor Value"
  { buy_score := buy_score, signal_class := signal_class, ev_score := ev_score,
    momentum_score := momentum_score, growth_score := growth_score }

/-- The `buy_signal_settings` values read at buy_signal.py lines 236-241,
already resolved per game (`jackpot_threshold` / `rollover_threshold` are
the `.get(game_id, 0)` results, so an unconfigured game is the value 0).
`ev_threshold` (line 238, default −0.20) is always counted as an available
criterion at lines 332-333, and a `None` value there would make line 272
raise; it is therefore modelled as a plain `ℚ`.  Defaults:
`jackpot_threshold = 0`, `rollover_threshold = 0`, `ev_threshold = −0.20`,
`draw_window_hours = 24`, `ev_suppression_threshold = −0.50`,
`ev_acceptable_threshold = −0.30`. -/
structure BuySignalSettings where
  jackpot_threshold : ℚ
  rollover_threshold : ℚ
  ev_threshold : ℚ
  draw_window_hours : ℚ
  ev_suppression_threshold : ℚ
  ev_acceptable_threshold : ℚ
deriving Repr, DecidableEq

/-- The default `buy_signal_settings` (the fallback literals of
buy_signal.py lines 236-241 for a game with no per-game entries). -/
def default_buy_signal_settings : BuySignalSettings :=
  { jackpot_threshold := 0
    rollover_threshold := 0
    ev_threshold := -1/5
    draw_window_hours := 24
    ev_suppression_threshold := -1/2
    ev_acceptable_threshold := -3/10 }

/-- A JSON config field that may be missing, null, or a number: used for
`game_config.get('min_threshold', 0)` (buy_signal.py line 246), where a
missing key yields the default `0`, a null value yields Python `None`,
and a number yields itself. -/
inductive ConfigVal where
  | absent
  | null
  | val (q : ℚ)
deriving Repr, DecidableEq

/-- `game_config.get('min_threshold', 0)` (buy_signal.py line 246): the
result is `none` for a null value, otherwise the number (default 0). -/
def ConfigVal.get_or_zero : ConfigVal → Option ℚ
  | ConfigVal.absent => some 0
  | ConfigVal.null => none
  | ConfigVal.val q => some q

/-- The game-specific configuration consulted by `calculate_buy_signal`
(only its `min_threshold` field is read, at buy_signal.py line 246). -/
structure GameConfig where
  min_threshold : ConfigVal
deriving Repr, DecidableEq

/-- Resolution of the jackpot threshold (buy_signal.py lines 236 and
243-246): the per-game `buy_signal_settings` value, falling back to the
game config's `min_threshold` when that value is 0; the result is `none`
exactly when the fallback is taken and `min_threshold` is null. -/
def resolved_jackpot_threshold (s : BuySignalSettings) (game_config : GameConfig) :
    Option ℚ :=
  if s.jackpot_threshold = 0 then game_config.min_threshold.get_or_zero
  else some s.jackpot_threshold

/-- The `criteria_met` list as built at buy_signal.py lines 248-323
(before the positive-EV addition of lines 360-361): entries "jackpot",
"rollover", "ev", "draw_window" in source order, each appended exactly
when its criterion is both configured and satisfied. -/
def criteria_met_base (s : BuySignalSettings) (jt : Option ℚ) (current_jackpot : ℚ)
    (ev_result : EVResult) (rollover_count : ℤ) (time_to_draw_minutes : Option ℤ) :
    List String :=
  -- lines 252-254: jackpot_met, appended when the threshold is set (> 0)
  (match jt with
   | some t => if 0 < t ∧ t ≤ current_jackpot then ["jackpot"] else []
   | none => []) ++
  -- lines 261-263: rollover_met, appended when the threshold is set (> 0)
  (if 0 < s.rollover_threshold ∧ s.rollover_threshold ≤ (rollover_count : ℚ) then
    ["rollover"] else []) ++
  -- lines 272, 278-279: ev_met
  (if s.ev_threshold ≤ ev_result.net_ev then ["ev"] else []) ++
  -- lines 310-314: draw_met, appended only when time_to_draw_minutes is given
  (match time_to_draw_minutes with
   | some m => if (m : ℚ) ≤ s.draw_window_hours * 60 then ["draw_window"] else []
   | none => [])

/-- The `criteria_met` list after the positive-EV addition of
buy_signal.py lines 358-361 ("ev" appended when `is_positive_ev` and not
already present). -/
def criteria_met_all (s : BuySignalSettings) (jt : Option ℚ) (current_jackpot : ℚ)
    (ev_result : EVResult) (rollover_count : ℤ) (time_to_draw_minutes : Option ℤ) :
    List String :=
  let base := criteria_met_base s jt current_jackpot ev_result rollover_count
    time_to_draw_minutes
  if ev_result.is_positive_ev ∧ "ev" ∉ base then base ++ ["ev"] else base

/-- `available_criteria_count` (buy_signal.py lines 327-335): the EV
criterion always counts (see `BuySignalSettings`). -/
def available_criteria_count (s : BuySignalSettings) (jt : Option ℚ)
    (time_to_draw_minutes : Option ℤ) : ℕ :=
  (match jt with | some t => if 0 < t then 1 else 0 | none => 0) +
  (if 0 < s.rollover_threshold then 1 else 0) +
  1 +
  (if time_to_draw_minutes.isSome then 1 else 0)

/-- `required_criteria` (buy_signal.py line 354): 2 when at least 4
criteria are available, else 1. -/
def required_criteria (s : BuySignalSettings) (jt : Option ℚ)
    (time_to_draw_minutes : Option ℤ) : ℕ :=
  if 4 ≤ available_criteria_count s jt time_to_draw_minutes then 2 else 1

/-- `is_exceptional_event` (buy_signal.py lines 338-341): a jackpot at
least twice the resolved threshold (with no positivity requirement on the
threshold), or a rollover count of at least 20. -/
def is_exceptional_event (jt : Option ℚ) (current_jackpot : ℚ) (rollover_count : ℤ) :
    Bool :=
  (match jt with
   | some t => decide (t * 2 ≤ current_jackpot)
   | none => false) ||
  decide (20 ≤ rollover_count)

/-- `ev_is_terrible` (buy_signal.py lines 347-349): the EV percentage is
strictly below the suppression threshold converted to percent. -/
def ev_is_terrible (s : BuySignalSettings) (ev_result : EVResult) : Bool :=
  decide (ev_result.ev_percentage < s.ev_suppression_threshold * 100)

/-- `ev_is_acceptable` (buy_signal.py lines 348-350): the EV percentage is
at least the acceptable threshold converted to percent. -/
def ev_is_acceptable (s : BuySignalSettings) (ev_result : EVResult) : Bool :=
  decide (s.ev_acceptable_threshold * 100 ≤ ev_result.ev_percentage)

/-- The final `has_signal` value computed at buy_signal.py lines 352-373:
the adaptive criteria count (line 355), the positive-EV override
(lines 357-362), the EV suppression (lines 364-366), and the weak-EV
down-weighting requiring 3 met criteria (lines 368-373), applied in
source order. -/
def has_signal_value (s : BuySignalSettings) (jt : Option ℚ) (current_jackpot : ℚ)
    (ev_result : EVResult) (rollover_count : ℤ) (time_to_draw_minutes : Option ℤ) :
    Bool :=
  let base := criteria_met_base s jt current_jackpot ev_result rollover_count
    time_to_draw_minutes
  let allc := criteria_met_all s jt current_jackpot ev_result rollover_count
    time_to_draw_minutes
  let exceptional := is_exceptional_event jt current_jackpot rollover_count
  let h1 := decide (required_criteria s jt time_to_draw_minutes ≤ base.length)
  let h2 := ev_result.is_positive_ev || h1
  let h3 := if ev_is_terrible s ev_result && !exceptional then false else h2
  if h3 && !exceptional && !(ev_is_acceptable s ev_result) &&
      !ev_result.is_positive_ev && decide (allc.length < 3) then
    false
  else h3

/-- `signal_type` and `confidence` as computed at buy_signal.py
lines 384-429 (for the signal-firing branch): derived from the composite
buy score, overridden to aggressive/high on positive EV, and overridden
to an event signal with EV-quality confidence on an exceptional event. -/
def signal_type_confidence (jt : Option ℚ) (current_jackpot : ℚ) (ev_result : EVResult)
    (rollover_count : ℤ) (buy_score : ℚ) : String × String :=
  let base :=
    if 8/10 ≤ buy_score then ("aggressive", "high")
    else if 6/10 ≤ buy_score then ("aggressive", "medium")
    else if 4/10 ≤ buy_score then ("basic", "medium")
    else ("basic", "low")
  let base := if ev_result.is_positive_ev then ("aggressive", "high") else base
  if is_exceptional_event jt current_jackpot rollover_count then
    ("event",
      if ev_result.is_positive_ev then "high"
      else if -20 ≤ ev_result.ev_percentage then "medium"
      else "low")
  else base

/-- Result record of `BuySignal.calculate_buy_signal`: the no-signal dict
of buy_signal.py lines 376-382 carries only `has_signal = false` (its
other keys are `None`/empty), so the remaining fields are `Option`s; the
full dict of lines 470-486 fills them.  The string-only `reasons`,
`message`, `ev_percentage`/`net_ev` echoes and `ev_tier`/`momentum`
echoes carry no decision logic and are omitted. -/
structure BuySignalResult where
  has_signal : Bool
  signal_type : Option String
  confidence : Option String
  criteria_met : Option (List String)
  growth_velocity : Option GrowthInfo
  composite_score : Option CompositeScore
deriving Repr, DecidableEq

/-- The effective previous jackpot of buy_signal.py line 296:
`previous_jackpot if previous_jackpot else current_jackpot` — Python
truthiness, so `None` and `0` fall back to the current jackpot. -/
def effective_previous_jackpot (current_jackpot : ℚ) (previous_jackpot : Option ℚ) : ℚ :=
  match previous_jackpot with
  | some p => if p ≠ 0 then p else current_jackpot
  | none => current_jackpot

/-- `BuySignal.calculate_buy_signal` (buy_signal.py lines 201-486),
assembled from the helpers above in source order. -/
def calculate_buy_signal (s : BuySignalSettings) (game_id : GameId)
    (current_jackpot : ℚ) (ev_result : EVResult) (rollover_count : ℤ)
    (time_to_draw_minutes : Option ℤ) (game_config : GameConfig)
    (previous_jackpot : Option ℚ) : BuySignalResult :=
  let jt := resolved_jackpot_threshold s game_config
  let momentum_info := calculate_rollover_momentum game_id rollover_count
  let growth_info := calculate_growth_velocity current_jackpot
    (effective_previous_jackpot current_jackpot previous_jackpot)
  let composite := calculate_composite_score ev_result.ev_percentage
    momentum_info.score growth_info.score
  if has_signal_value s jt current_jackpot ev_result rollover_count
      time_to_draw_minutes then
    let tc := signal_type_confidence jt current_jackpot ev_result rollover_count
      composite.buy_score
    { has_signal := true
      signal_type := some tc.1
      confidence := some tc.2
      criteria_met := some (criteria_met_all s jt current_jackpot ev_result
        rollover_count time_to_draw_minutes)
      growth_velocity := some growth_info
      composite_score := some composite }
  else
    { has_signal := false, signal_type := none, confidence := none,
      criteria_met := none, growth_velocity := none, composite_score := none }

/-- Per-game state as created by `ThresholdAlert._get_game_state`
(threshold_alert.py lines 75-93) and mutated by `check_threshold`.
Timestamps (`datetime.now().isoformat()`) are modelled as an abstract
`ℕ` clock value passed to `check_threshold`.  `previous_jackpot` and
`last_won_date` are keys absent from the initial dict, hence `Option`s
that start as `none`.  The `active_buy_signal`, `buy_signal_last_seen`
and `buy_signal_reminder_sent` fields are never read or written by
`check_threshold` and are omitted. -/
structure GameState where
  last_jackpot : ℚ
  previous_jackpot : Option ℚ
  last_threshold : ℚ
  last_alert_time : Option ℕ
  thresholds_hit : List (ℚ × ℚ × ℕ)
  cycle_start_jackpot : Option ℚ
  rollover_count : ℤ
  last_won_date : Option ℕ
deriving Repr, DecidableEq

/-- The freshly created game state of `_get_game_state`
(threshold_alert.py lines 80-91). -/
def fresh_game_state : GameState :=
  { last_jackpot := 0
    previous_jackpot := none
    last_threshold := 0
    last_alert_time := none
    thresholds_hit := []
    cycle_start_jackpot := none
    rollover_count := 0
    last_won_date := none }

/-- The `rollover_increments` table (threshold_alert.py lines 148-155),
with the `.get(game_id, 0)` default. -/
def rollover_increment (game_id : GameId) : ℚ :=
  if game_id = GameId.lucky_day_lotto_midday then 50000
  else if game_id = GameId.lucky_day_lotto_evening then 50000
  else if game_id = GameId.powerball then 2000000
  else if game_id = GameId.mega_millions then 2000000
  else 0

/-- The `reset_thresholds` table (threshold_alert.py lines 163-169),
with the `.get(game_id, 0)` default. -/
def reset_threshold (game_id : GameId) : ℚ :=
  if game_id = GameId.lucky_day_lotto_midday then 100000
  else if game_id = GameId.lucky_day_lotto_evening then 100000
  else if game_id = GameId.powerball then 100000000
  else if game_id = GameId.mega_millions then 100000000
  else 0

/-- The rollover/reset bookkeeping of `check_threshold`
(threshold_alert.py lines 146-198), run only when the game has a positive
rollover increment: a jackpot reset (detected when the previous jackpot
was positive, the current one is below half of it, and at or below the
game's reset ceiling) zeroes the rollover count, re-baselines
`cycle_start_jackpot`, and records `last_won_date`; otherwise the cycle
start is initialised on first sight, and else the rollover count is
recomputed from the cycle start (re-baselining with a warning when the
jackpot fell below the cycle start without qualifying as a reset).
Note line 184's `elif not jackpot_reset and cycle_start_jackpot:` uses
Python truthiness, so a recorded cycle start of exactly 0 skips the
recomputation. -/
def update_rollover (game_id : GameId) (current_jackpot : ℚ) (now : ℕ)
    (st : GameState) : GameState :=
  if 0 < rollover_increment game_id then
    if 0 < st.last_jackpot ∧ current_jackpot < st.last_jackpot * (1/2) ∧
        current_jackpot ≤ reset_threshold game_id then
      { st with
        rollover_count := 0
        cycle_start_jackpot := some current_jackpot
        last_won_date := some now }
    else
      match st.cycle_start_jackpot with
      | none =>
        { st with cycle_start_jackpot := some current_jackpot, rollover_count := 0 }
      | some c =>
        if c ≠ 0 then
          if c ≤ current_jackpot then
            let calculated_rollovers :=
              max 0 (Int.floor ((current_jackpot - c) / rollover_increment game_id))
            { st with rollover_count := calculated_rollovers }
          else
            { st with cycle_start_jackpot := some current_jackpot, rollover_count := 0 }
        else st
  else st

/-- The alert dict built at threshold_alert.py lines 234-240;
`previous_jackpot` is the jackpot recorded before this observation. -/
structure AlertInfo where
  game_id : GameId
  current_jackpot : ℚ
  threshold : ℚ
  previous_jackpot : ℚ
  timestamp : ℕ
deriving Repr, DecidableEq

/-- `ThresholdAlert.check_threshold` (threshold_alert.py lines 95-257).
`min_threshold` is the per-game threshold parameter (lines 119-124: a
`None` means the game has no threshold and is never defaulted);
`threshold_operator` is the comparison-operator parameter documented at
line 105 — the source accepts it but never reads it, so it is an unused
argument here as well.  `now` stands for `datetime.now()`.  Returns the
alert (if any) and the updated state.  State writes follow the source:
the no-threshold branch (lines 127-144) only updates the jackpot
bookkeeping; otherwise rollover bookkeeping (lines 146-198), jackpot
bookkeeping (lines 200-209), the below-threshold reset of
`last_threshold` (lines 215-221), and the single-fire alert
(lines 223-257), where line 232's `if threshold_hit:` makes a threshold
value of exactly 0 falsy and hence never alerts. -/
def check_threshold (game_id : GameId) (current_jackpot : ℚ)
    (min_threshold : Option ℚ) (threshold_operator : String) (now : ℕ)
    (st : GameState) : Option AlertInfo × GameState :=
  let _ := threshold_operator
  match min_threshold with
  | none =>
    (none,
      { st with
        previous_jackpot :=
          if st.last_jackpot ≠ current_jackpot then some st.last_jackpot
          else st.previous_jackpot
        last_jackpot := current_jackpot })
  | some m =>
    let st1 := update_rollover game_id current_jackpot now st
    let st2 :=
      { st1 with
        previous_jackpot :=
          if st1.last_jackpot ≠ current_jackpot then some st1.last_jackpot
          else st1.previous_jackpot
        last_jackpot := current_jackpot }
    if current_jackpot < m then
      if 0 < st.last_threshold then
        (none, { st2 with last_threshold := 0 })
      else
        (none, st2)
    else
      let threshold_hit : Option ℚ :=
        if m ≤ current_jackpot ∧ st.last_threshold = 0 then some m else none
      match threshold_hit with
      | some t =>
        if t ≠ 0 then
          (some { game_id := game_id, current_jackpot := current_jackpot,
                  threshold := t, previous_jackpot := st.last_jackpot,
                  timestamp := now },
            { st2 with
              last_threshold := t
              last_alert_time := some now
              thresholds_hit := st2.thresholds_hit ++ [(t, current_jackpot, now)] })
        else (none, st2)
      | none => (none, st2)

/-- Iterated observation feed: runs `check_threshold` on each jackpot in
turn, threading the state, and reports for each observation whether an
alert was emitted. -/
def check_threshold_run (game_id : GameId) (min_threshold : Option ℚ)
    (threshold_operator : String) (now : ℕ) : List ℚ → GameState → List Bool
  | [], _ => []
  | j :: rest, st =>
    let res := check_threshold game_id j min_threshold threshold_operator now st
    res.1.isSome :: check_threshold_run game_id min_threshold threshold_operator
      now rest res.2

/-! ## Helper lemmas -/

/-- Any record returned by `calculate_ev` has its `is_positive_ev` flag and
`ev_percentage` consistent with its `net_ev` (the record construction at
ev_calculator.py lines 61 and 77). -/
theorem calculate_ev_consistent (inc : Bool) (tax lump evt j : ℚ) (odds : ℤ)
    (cost : ℚ) (sec : Option ℚ) (r : EVResult)
    (hr : calculate_ev inc tax lump evt j odds cost sec = some r) :
    r.is_positive_ev = decide (0 < r.net_ev) ∧
    r.ev_percentage = (if 0 < cost then r.net_ev / cost * 100 else 0) := by
  by_cases h : odds = 0 ∨ (1 - tax) * lump = 0
  · unfold calculate_ev at hr
    rw [if_pos h] at hr
    exact absurd hr (by simp)
  · unfold calculate_ev at hr
    rw [if_neg h] at hr
    injection hr with hr
    subst hr
    exact ⟨rfl, rfl⟩

/-- The `has_signal` field of `calculate_buy_signal` is exactly
`has_signal_value` at the resolved jackpot threshold. -/
theorem calculate_buy_signal_has_signal_eq (s : BuySignalSettings) (game_id : GameId)
    (current : ℚ) (r : EVResult) (rollover : ℤ) (t2d : Option ℤ)
    (cfg : GameConfig) (prev : Option ℚ) :
    (calculate_buy_signal s game_id current r rollover t2d cfg prev).has_signal =
      has_signal_value s (resolved_jackpot_threshold s cfg) current r rollover t2d := by
  by_cases h : has_signal_value s (resolved_jackpot_threshold s cfg) current r rollover t2d = true
  · simp [calculate_buy_signal, h]
  · rw [Bool.not_eq_true] at h
    simp [calculate_buy_signal, h]

/-! ## Claim C5 -/

/-- Claim C5 counterexample: calling `calculate_ev` with `ticket_cost = 0`
(default tax rate 0.37, lump-sum factor 0.61, `EV_THRESHOLD = -0.20`)
does not fail at all: it returns a result whose `ev_percentage` is the
fabricated value `0`, contradicting the claim that `ticket_cost ≤ 0` is
reported as `InvalidConfig` rather than returning a fabricated value. -/
theorem calculate_ev_zero_cost_returns_fabricated_value :
    calculate_ev true (37/100) (61/100) (-1/5) 10000 1 0 none =
      some ⟨10000, 3843, 1, 0, 3843, 0, 3843, 3843, 0, 0, true, true⟩ := by
  norm_num [calculate_ev]

/-- Claim C5 (amended): `calculate_ev` performs no `InvalidConfig`
validation.  It fails (an unguarded Python ZeroDivisionError) exactly when
`odds = 0` or `(1 - tax_rate) * lump_sum_factor = 0`; for every other
input — including nonpositive `ticket_cost` and negative `odds` — it
returns a result, whose `ev_percentage` is `(net_ev / ticket_cost) * 100`
when `ticket_cost > 0` and the fabricated value `0` when
`ticket_cost ≤ 0`. -/
theorem calculate_ev_failure_modes (inc : Bool) (tax lump evt j : ℚ) (odds : ℤ)
    (cost : ℚ) (sec : Option ℚ) :
    (calculate_ev inc tax lump evt j odds cost sec = none ↔
      (odds = 0 ∨ (1 - tax) * lump = 0)) ∧
    (∀ r : EVResult, calculate_ev inc tax lump evt j odds cost sec = some r →
      (0 < cost → r.ev_percentage = r.net_ev / cost * 100) ∧
      (cost ≤ 0 → r.ev_percentage = 0)) := by
  constructor
  · by_cases h : odds = 0 ∨ (1 - tax) * lump = 0
    · unfold calculate_ev
      rw [if_pos h]
      simp only [eq_self_iff_true, true_iff]
      exact h
    · unfold calculate_ev
      rw [if_neg h]
      exact ⟨fun hfalse => absurd hfalse (by simp), fun hor => absurd hor h⟩
  · intro r hr
    obtain ⟨-, hpct⟩ := calculate_ev_consistent inc tax lump evt j odds cost sec r hr
    constructor
    · intro hcost
      rw [hpct, if_pos hcost]
    · intro hcost
      rw [hpct, if_neg (not_lt.mpr hcost)]

/-- Witness for `calculate_ev_failure_modes` at a concrete input. -/
theorem calculate_ev_failure_modes_witness :
    calculate_ev true 0 1 0 10 1 1 none =
      some ⟨10, 10, 1, 1, 10, 0, 10, 9, 900, 1, true, true⟩ ∧
    (0 : ℚ) < 1 ∧
    (EVResult.ev_percentage ⟨10, 10, 1, 1, 10, 0, 10, 9, 900, 1, true, true⟩ : ℚ) =
      (9 : ℚ) / 1 * 100 := by
  refine ⟨by norm_num [calculate_ev], by norm_num, ?_⟩
  exact ((calculate_ev_failure_modes true 0 1 0 10 1 1 none).2
    ⟨10, 10, 1, 1, 10, 0, 10, 9, 900, 1, true, true⟩ (by norm_num [calculate_ev])).1
    (by norm_num)

/-! ## Claim C6 -/

/-- Claim C6: break-even round trip.  For every valid input (`odds > 0`,
`ticket_cost > 0`, `secondary_prize_ev ≥ 0`, `tax_rate < 1`,
`lump_sum_factor > 0`), feeding the `break_even_jackpot` produced by
`calculate_ev` back into `calculate_ev` with the same odds, ticket cost
and secondary prize value yields `net_ev` exactly `0` over exact rational
arithmetic. -/
theorem ev_break_even_round_trip (inc : Bool) (tax lump evt j : ℚ) (odds : ℤ)
    (cost : ℚ) (sec : Option ℚ) (ho : 0 < odds) (hc : 0 < cost) (htax : tax < 1)
    (hl : 0 < lump) (hs : 0 ≤ sec.getD 0) :
    ∀ r r2 : EVResult,
      calculate_ev inc tax lump evt j odds cost sec = some r →
      calculate_ev inc tax lump evt r.break_even_jackpot odds cost sec = some r2 →
      r2.net_ev = 0 := by
  intro r r2 hr hr2
  have hodds : (odds : ℚ) ≠ 0 := Int.cast_ne_zero.mpr (by omega)
  have htl : (1 - tax) * lump ≠ 0 := mul_ne_zero (by linarith) (by linarith)
  have hcond : ¬(odds = 0 ∨ (1 - tax) * lump = 0) := by
    push_neg
    exact ⟨by omega, htl⟩
  unfold calculate_ev at hr hr2
  rw [if_neg hcond] at hr hr2
  injection hr with hr
  injection hr2 with hr2
  subst hr
  subst hr2
  simp only
  field_simp
  ring

/-- Witness for `ev_break_even_round_trip` at a concrete input:
odds 2, ticket cost 3, no secondary prizes, tax rate 1/2, lump-sum
factor 1; the break-even jackpot is 12 and feeding it back yields
`net_ev = 0`. -/
theorem ev_break_even_round_trip_witness :
    (0 : ℤ) < 2 ∧ (0 : ℚ) < 3 ∧ (1/2 : ℚ) < 1 ∧ (0 : ℚ) < 1 ∧
    (0 : ℚ) ≤ (none : Option ℚ).getD 0 ∧
    calculate_ev false (1/2) 1 0 7 2 3 none =
      some ⟨7, 7/2, 2, 3, 7/4, 0, 7/4, -5/4, -125/3, 12, false, false⟩ ∧
    calculate_ev false (1/2) 1 0
        (EVResult.break_even_jackpot ⟨7, 7/2, 2, 3, 7/4, 0, 7/4, -5/4, -125/3, 12, false, false⟩)
        2 3 none =
      some ⟨12, 6, 2, 3, 3, 0, 3, 0, 0, 12, false, true⟩ ∧
    (EVResult.net_ev ⟨12, 6, 2, 3, 3, 0, 3, 0, 0, 12, false, true⟩ : ℚ) = 0 := by
  refine ⟨by norm_num, by norm_num, by norm_num, by norm_num, by norm_num,
    by norm_num [calculate_ev], by norm_num [calculate_ev], ?_⟩
  exact ev_break_even_round_trip false (1/2) 1 0 7 2 3 none (by norm_num) (by norm_num)
    (by norm_num) (by norm_num) (by norm_num)
    ⟨7, 7/2, 2, 3, 7/4, 0, 7/4, -5/4, -125/3, 12, false, false⟩
    ⟨12, 6, 2, 3, 3, 0, 3, 0, 0, 12, false, true⟩
    (by norm_num [calculate_ev]) (by norm_num [calculate_ev])

/-! ## Claim C1 -/

/-- If a record has `is_positive_ev` set and a nonnegative EV percentage
(as every positive-EV record produced by `calculate_ev` does), the
`has_signal` computation of buy_signal.py lines 352-373 yields `true`
whenever the suppression threshold is nonpositive (its default is
−0.50). -/
theorem has_signal_value_of_positive_ev (s : BuySignalSettings) (jt : Option ℚ)
    (current : ℚ) (r : EVResult) (rollover : ℤ) (t2d : Option ℤ)
    (hpos : r.is_positive_ev = true) (hpct : 0 ≤ r.ev_percentage)
    (hsup : s.ev_suppression_threshold ≤ 0) :
    has_signal_value s jt current r rollover t2d = true := by
  have hterr : ev_is_terrible s r = false := by
    simp only [ev_is_terrible, decide_eq_false_iff_not, not_lt]
    nlinarith
  simp [has_signal_value, hterr, hpos]

/-- Claim C1: for every call of `calculate_buy_signal` in which the
supplied `EVResult` was produced by `calculate_ev` and has `net_ev > 0`
(equivalently `is_positive_ev`), the returned record has
`has_signal = true`, regardless of the rollover count, time-to-draw,
jackpot threshold, and all other criteria inputs (for any nonpositive
suppression threshold; the default is −0.50). -/
theorem buy_signal_positive_ev_forces_signal (inc : Bool) (tax lump evt j : ℚ)
    (odds : ℤ) (cost : ℚ) (sec : Option ℚ) (r : EVResult) (s : BuySignalSettings)
    (game_id : GameId) (current_jackpot : ℚ) (rollover_count : ℤ)
    (time_to_draw_minutes : Option ℤ) (game_config : GameConfig)
    (previous_jackpot : Option ℚ)
    (hev : calculate_ev inc tax lump evt j odds cost sec = some r)
    (hpos : 0 < r.net_ev)
    (hsup : s.ev_suppression_threshold ≤ 0) :
    (calculate_buy_signal s game_id current_jackpot r rollover_count
      time_to_draw_minutes game_config previous_jackpot).has_signal = true := by
  obtain ⟨hflag, hpct⟩ := calculate_ev_consistent inc tax lump evt j odds cost sec r hev
  have hflag' : r.is_positive_ev = true := by
    rw [hflag, decide_eq_true_eq]
    exact hpos
  have hpct' : 0 ≤ r.ev_percentage := by
    rw [hpct]
    by_cases hcost : 0 < cost
    · rw [if_pos hcost]
      positivity
    · rw [if_neg hcost]
  rw [calculate_buy_signal_has_signal_eq]
  exact has_signal_value_of_positive_ev s _ current_jackpot r rollover_count
    time_to_draw_minutes hflag' hpct' hsup

/-- Witness for `buy_signal_positive_ev_forces_signal` at a concrete
input: a positive-EV record (net EV 9 on a 1-unit ticket) fires a signal
even with a tiny jackpot, zero rollovers and no draw-time data. -/
theorem buy_signal_positive_ev_forces_signal_witness :
    calculate_ev true 0 1 0 10 1 1 none =
      some ⟨10, 10, 1, 1, 10, 0, 10, 9, 900, 1, true, true⟩ ∧
    (0 : ℚ) < EVResult.net_ev ⟨10, 10, 1, 1, 10, 0, 10, 9, 900, 1, true, true⟩ ∧
    default_buy_signal_settings.ev_suppression_threshold ≤ 0 ∧
    (calculate_buy_signal default_buy_signal_settings GameId.powerball 100
      ⟨10, 10, 1, 1, 10, 0, 10, 9, 900, 1, true, true⟩ 0 none
      ⟨ConfigVal.val 1000⟩ none).has_signal = true := by
  refine ⟨by norm_num [calculate_ev], by norm_num,
    by norm_num [default_buy_signal_settings], ?_⟩
  exact buy_signal_positive_ev_forces_signal true 0 1 0 10 1 1 none
    ⟨10, 10, 1, 1, 10, 0, 10, 9, 900, 1, true, true⟩ default_buy_signal_settings
    GameId.powerball 100 0 none ⟨ConfigVal.val 1000⟩ none
    (by norm_num [calculate_ev]) (by norm_num)
    (by norm_num [default_buy_signal_settings])

/-! ## Claim C2 -/

/-- Claim C2: for every call of `calculate_buy_signal` where the
`EVResult`'s `ev_percentage` is strictly below the suppression threshold
(in percent; the default threshold is −0.50, i.e. −50%) and the
exceptional-event condition does not hold, the result has
`has_signal = false`, regardless of every other criterion. -/
theorem buy_signal_suppression_overrides (s : BuySignalSettings) (game_id : GameId)
    (current_jackpot : ℚ) (r : EVResult) (rollover_count : ℤ)
    (time_to_draw_minutes : Option ℤ) (game_config : GameConfig)
    (previous_jackpot : Option ℚ)
    (hterr : r.ev_percentage < s.ev_suppression_threshold * 100)
    (hexc : is_exceptional_event (resolved_jackpot_threshold s game_config)
      current_jackpot rollover_count = false) :
    (calculate_buy_signal s game_id current_jackpot r rollover_count
      time_to_draw_minutes game_config previous_jackpot).has_signal = false := by
  rw [calculate_buy_signal_has_signal_eq]
  have ht : ev_is_terrible s r = true := by
    simp only [ev_is_terrible, decide_eq_true_eq]
    exact hterr
  simp [has_signal_value, ht, hexc]

/-- Witness for `buy_signal_suppression_overrides`: `ev_percentage = -60`
(below the default -50% suppression), with every other configured
criterion met (jackpot 600,000 over a 500,000 threshold, 3 rollovers over
a threshold of 2, net EV -0.15 over the -0.20 EV threshold, 60 minutes to
draw inside the 24h window: the base criteria list has all 4 entries) and
not exceptional, yields `has_signal = false`. -/
theorem buy_signal_suppression_overrides_witness :
    (EVResult.ev_percentage ⟨600000, 0, 575757, 1, 0, 0, 0, -3/20, -60, 0, false, false⟩ : ℚ) <
      ({ default_buy_signal_settings with jackpot_threshold := 500000, rollover_threshold := 2 } : BuySignalSettings).ev_suppression_threshold * 100 ∧
    is_exceptional_event
      (resolved_jackpot_threshold
        { default_buy_signal_settings with jackpot_threshold := 500000, rollover_threshold := 2 }
        ⟨ConfigVal.absent⟩) 600000 3 = false ∧
    (criteria_met_base
      { default_buy_signal_settings with jackpot_threshold := 500000, rollover_threshold := 2 }
      (resolved_jackpot_threshold
        { default_buy_signal_settings with jackpot_threshold := 500000, rollover_threshold := 2 }
        ⟨ConfigVal.absent⟩) 600000
      ⟨600000, 0, 575757, 1, 0, 0, 0, -3/20, -60, 0, false, false⟩ 3 (some 60)).length = 4 ∧
    (calculate_buy_signal
      { default_buy_signal_settings with jackpot_threshold := 500000, rollover_threshold := 2 }
      GameId.powerball 600000 ⟨600000, 0, 575757, 1, 0, 0, 0, -3/20, -60, 0, false, false⟩ 3
      (some 60) ⟨ConfigVal.absent⟩ none).has_signal = false := by
  refine ⟨by norm_num [default_buy_signal_settings],
    by norm_num [is_exceptional_event, resolved_jackpot_threshold, default_buy_signal_settings],
    by norm_num [criteria_met_base, resolved_jackpot_threshold, default_buy_signal_settings],
    ?_⟩
  exact buy_signal_suppression_overrides
    { default_buy_signal_settings with jackpot_threshold := 500000, rollover_threshold := 2 }
    GameId.powerball 600000 ⟨600000, 0, 575757, 1, 0, 0, 0, -3/20, -60, 0, false, false⟩ 3
    (some 60) ⟨ConfigVal.absent⟩ none
    (by norm_num [default_buy_signal_settings])
    (by norm_num [is_exceptional_event, resolved_jackpot_threshold, default_buy_signal_settings])

/-! ## Claim C9 -/

/-- Claim C9 (implicit): when the resolved jackpot threshold is 0 (no
per-game `jackpot_threshold` configured, and `min_threshold` absent or 0
in the game config) and the current jackpot is nonnegative, the
exceptional-event condition of buy_signal.py lines 338-341 holds
(`current_jackpot >= 0 * 2`), so the EV suppression (lines 364-366) and
the 3-criteria down-weighting (lines 368-373) never flip `has_signal` to
`false` — the result equals the pre-suppression value of lines 352-362 —
and any fired signal is typed "event" (line 412). -/
theorem buy_signal_zero_threshold_always_exceptional (s : BuySignalSettings)
    (game_id : GameId) (current_jackpot : ℚ) (r : EVResult) (rollover_count : ℤ)
    (time_to_draw_minutes : Option ℤ) (game_config : GameConfig)
    (previous_jackpot : Option ℚ)
    (hjt : s.jackpot_threshold = 0)
    (hmt : game_config.min_threshold = ConfigVal.absent ∨
      game_config.min_threshold = ConfigVal.val 0)
    (hcur : 0 ≤ current_jackpot) :
    is_exceptional_event (resolved_jackpot_threshold s game_config) current_jackpot
      rollover_count = true ∧
    (calculate_buy_signal s game_id current_jackpot r rollover_count
        time_to_draw_minutes game_config previous_jackpot).has_signal =
      (r.is_positive_ev ||
        decide (required_criteria s (resolved_jackpot_threshold s game_config)
            time_to_draw_minutes ≤
          (criteria_met_base s (resolved_jackpot_threshold s game_config)
            current_jackpot r rollover_count time_to_draw_minutes).length)) ∧
    ((calculate_buy_signal s game_id current_jackpot r rollover_count
        time_to_draw_minutes game_config previous_jackpot).has_signal = true →
      (calculate_buy_signal s game_id current_jackpot r rollover_count
        time_to_draw_minutes game_config previous_jackpot).signal_type = some "event") := by
  have hres : resolved_jackpot_threshold s game_config = some 0 := by
    rcases hmt with h | h <;>
      simp [resolved_jackpot_threshold, hjt, h, ConfigVal.get_or_zero]
  have hexc : is_exceptional_event (resolved_jackpot_threshold s game_config)
      current_jackpot rollover_count = true := by
    rw [hres]
    simp only [is_exceptional_event, Bool.or_eq_true, decide_eq_true_eq]
    left
    linarith
  refine ⟨hexc, ?_, ?_⟩
  · rw [calculate_buy_signal_has_signal_eq]
    simp [has_signal_value, hexc]
  · intro hsig
    rw [calculate_buy_signal_has_signal_eq] at hsig
    simp only [calculate_buy_signal, hsig, if_true]
    simp [signal_type_confidence, hexc]

/-- Witness for `buy_signal_zero_threshold_always_exceptional`: with
default settings (no jackpot threshold), an absent `min_threshold`, a
positive-EV record, jackpot 50 and no other criteria data, the situation
is exceptional, the signal fires, and it is typed "event". -/
theorem buy_signal_zero_threshold_always_exceptional_witness :
    default_buy_signal_settings.jackpot_threshold = 0 ∧
    (GameConfig.min_threshold ⟨ConfigVal.absent⟩ = ConfigVal.absent ∨
      GameConfig.min_threshold ⟨ConfigVal.absent⟩ = ConfigVal.val 0) ∧
    (0 : ℚ) ≤ 50 ∧
    is_exceptional_event
      (resolved_jackpot_threshold default_buy_signal_settings ⟨ConfigVal.absent⟩) 50 0 = true ∧
    ((calculate_buy_signal default_buy_signal_settings GameId.pick_3 50
        ⟨10, 10, 1, 1, 10, 0, 10, 9, 900, 1, true, true⟩ 0 none
        ⟨ConfigVal.absent⟩ none).has_signal = true →
      (calculate_buy_signal default_buy_signal_settings GameId.pick_3 50
        ⟨10, 10, 1, 1, 10, 0, 10, 9, 900, 1, true, true⟩ 0 none
        ⟨ConfigVal.absent⟩ none).signal_type = some "event") := by
  obtain ⟨h1, h2, h3⟩ := buy_signal_zero_threshold_always_exceptional
    default_buy_signal_settings GameId.pick_3 50
    ⟨10, 10, 1, 1, 10, 0, 10, 9, 900, 1, true, true⟩ 0 none ⟨ConfigVal.absent⟩ none
    (by norm_num [default_buy_signal_settings]) (Or.inl rfl) (by norm_num)
  exact ⟨by norm_num [default_buy_signal_settings], Or.inl rfl, by norm_num, h1, h3⟩

/-! ## Claim C8 -/

/-- Claim C8 counterexample: a call of `calculate_buy_signal` with no
previous jackpot supplied and a positive current jackpot (1,000,000) uses
growth score `0`, not the neutral `0.5`, in the composite buy score:
line 296 of buy_signal.py substitutes the current jackpot for the missing
previous one, so the growth computation sees zero growth. -/
theorem buy_signal_growth_neutral_counterexample :
    ((calculate_buy_signal default_buy_signal_settings GameId.powerball 1000000
        ⟨10, 10, 1, 1, 10, 0, 10, 9, 900, 1, true, true⟩ 0 none
        ⟨ConfigVal.absent⟩ none).composite_score.map CompositeScore.growth_score) =
      some 0 ∧
    some (0 : ℚ) ≠ some ((1 : ℚ)/2) := by
  constructor
  · norm_num [calculate_buy_signal, has_signal_value, criteria_met_base, criteria_met_all,
      required_criteria, available_criteria_count, is_exceptional_event, ev_is_terrible,
      ev_is_acceptable, resolved_jackpot_threshold, ConfigVal.get_or_zero,
      calculate_rollover_momentum, rollover_breakpoints, calculate_growth_velocity,
      effective_previous_jackpot, calculate_composite_score, signal_type_confidence,
      default_buy_signal_settings]
  · norm_num

/-- Claim C8 (amended): `calculate_growth_velocity` scores
`growth_percent > 5` as 1.0, `> 2` as 0.6, `> 0` as 0.3 and `≤ 0` as 0.0,
and returns the neutral 0.5 only when the previous jackpot passed to it
is not positive; but `calculate_buy_signal` (buy_signal.py line 296)
substitutes the current jackpot for an unsupplied or zero previous
jackpot, so in those cases (with a positive current jackpot) the growth
score used in the composite buy score is 0.0, not 0.5 — and the composite
record of a fired signal is always built from the growth score at the
substituted previous jackpot. -/
theorem growth_velocity_scoring (current previous : ℚ) (s : BuySignalSettings)
    (game_id : GameId) (r : EVResult) (rollover_count : ℤ)
    (time_to_draw_minutes : Option ℤ) (game_config : GameConfig)
    (previous_jackpot : Option ℚ) :
    (0 < previous →
      (5 < (current - previous) / previous * 100 →
        (calculate_growth_velocity current previous).score = 1) ∧
      (2 < (current - previous) / previous * 100 ∧
          (current - previous) / previous * 100 ≤ 5 →
        (calculate_growth_velocity current previous).score = 6/10) ∧
      (0 < (current - previous) / previous * 100 ∧
          (current - previous) / previous * 100 ≤ 2 →
        (calculate_growth_velocity current previous).score = 3/10) ∧
      ((current - previous) / previous * 100 ≤ 0 →
        (calculate_growth_velocity current previous).score = 0)) ∧
    (previous ≤ 0 → (calculate_growth_velocity current previous).score = 1/2) ∧
    (0 < current →
      (calculate_growth_velocity current
        (effective_previous_jackpot current none)).score = 0 ∧
      (calculate_growth_velocity current
        (effective_previous_jackpot current (some 0))).score = 0) ∧
    ((calculate_buy_signal s game_id current r rollover_count time_to_draw_minutes
        game_config previous_jackpot).composite_score.isSome →
      (calculate_buy_signal s game_id current r rollover_count time_to_draw_minutes
          game_config previous_jackpot).composite_score =
        some (calculate_composite_score r.ev_percentage
          (calculate_rollover_momentum game_id rollover_count).score
          (calculate_growth_velocity current
            (effective_previous_jackpot current previous_jackpot)).score)) := by
  refine ⟨?_, ?_, ?_, ?_⟩
  · intro hprev
    have hne := not_le.mpr hprev
    refine ⟨?_, ?_, ?_, ?_⟩
    · intro h5
      simp [calculate_growth_velocity, hne, h5]
    · rintro ⟨h2, h5⟩
      simp [calculate_growth_velocity, hne, not_lt.mpr h5, h2]
    · rintro ⟨h0, h2⟩
      have h5 : ¬ 5 < (current - previous) / previous * 100 := by
        push_neg
        linarith
      simp [calculate_growth_velocity, hne, h5, not_lt.mpr h2, h0]
    · intro h0
      have h5 : ¬ 5 < (current - previous) / previous * 100 := by
        push_neg
        linarith
      have h2' : ¬ 2 < (current - previous) / previous * 100 := by
        push_neg
        linarith
      simp [calculate_growth_velocity, hne, h5, h2', not_lt.mpr h0]
  · intro hprev
    simp [calculate_growth_velocity, hprev]
  · intro hcur
    constructor <;>
      · simp [calculate_growth_velocity, effective_previous_jackpot, not_le.mpr hcur]
        norm_num
  · intro hsome
    by_cases h : has_signal_value s (resolved_jackpot_threshold s game_config) current r
        rollover_count time_to_draw_minutes = true
    · simp [calculate_buy_signal, h]
    · rw [Bool.not_eq_true] at h
      simp [calculate_buy_signal, h] at hsome

/-- Witness for `growth_velocity_scoring` at concrete inputs: growth from
100 to 110 (10% > 5%) scores 1.0; a jackpot of 5 with no previous data
scores 0.0 in the substituted computation. -/
theorem growth_velocity_scoring_witness :
    (0 : ℚ) < 100 ∧
    (5 : ℚ) < (110 - 100) / 100 * 100 ∧
    (calculate_growth_velocity 110 100).score = 1 ∧
    (0 : ℚ) < 5 ∧
    (calculate_growth_velocity 5 (effective_previous_jackpot 5 none)).score = 0 := by
  obtain ⟨p1, p2, p3, p4⟩ := growth_velocity_scoring 110 100
    default_buy_signal_settings GameId.powerball
    ⟨10, 10, 1, 1, 10, 0, 10, 9, 900, 1, true, true⟩ 0 none ⟨ConfigVal.absent⟩ none
  refine ⟨by norm_num, by norm_num, (p1 (by norm_num)).1 (by norm_num), by norm_num, ?_⟩
  obtain ⟨q1, q2, q3, q4⟩ := growth_velocity_scoring 5 100
    default_buy_signal_settings GameId.powerball
    ⟨10, 10, 1, 1, 10, 0, 10, 9, 900, 1, true, true⟩ 0 none ⟨ConfigVal.absent⟩ none
  exact (q3 (by norm_num)).1

/-! ## Threshold-tracker helper lemmas -/

/-- The rollover bookkeeping never touches the threshold-alert fields or
the jackpot bookkeeping fields. -/
theorem update_rollover_preserves (g : GameId) (current : ℚ) (now : ℕ) (st : GameState) :
    (update_rollover g current now st).last_threshold = st.last_threshold ∧
    (update_rollover g current now st).last_jackpot = st.last_jackpot ∧
    (update_rollover g current now st).previous_jackpot = st.previous_jackpot ∧
    (update_rollover g current now st).last_alert_time = st.last_alert_time ∧
    (update_rollover g current now st).thresholds_hit = st.thresholds_hit := by
  cases hceq : st.cycle_start_jackpot with
  | none =>
    simp only [update_rollover, hceq]
    split_ifs <;> simp
  | some c =>
    simp only [update_rollover, hceq]
    split_ifs <;> simp

/-- The alert returned by `check_threshold` with a configured threshold:
emitted exactly when the jackpot reaches the (nonzero) threshold while
`last_threshold` is 0. -/
theorem check_threshold_alert_eq (g : GameId) (current m : ℚ) (op : String)
    (now : ℕ) (st : GameState) :
    (check_threshold g current (some m) op now st).1 =
      (if m ≤ current ∧ st.last_threshold = 0 ∧ m ≠ 0 then
        some { game_id := g, current_jackpot := current, threshold := m,
               previous_jackpot := st.last_jackpot, timestamp := now }
      else none) := by
  unfold check_threshold
  dsimp only
  by_cases h1 : current < m
  · have hnle : ¬ m ≤ current := not_le.mpr h1
    rw [if_pos h1, if_neg (by tauto : ¬(m ≤ current ∧ st.last_threshold = 0 ∧ m ≠ 0))]
    split_ifs <;> rfl
  · have hle : m ≤ current := not_lt.mp h1
    rw [if_neg h1]
    by_cases h2 : st.last_threshold = 0
    · by_cases h3 : m = 0
      · subst h3
        rw [if_neg (by tauto : ¬((0:ℚ) ≤ current ∧ st.last_threshold = 0 ∧ (0:ℚ) ≠ 0)),
          if_pos (show (0:ℚ) ≤ current ∧ st.last_threshold = 0 from ⟨hle, h2⟩)]
        dsimp only
        simp
      · rw [if_pos (show m ≤ current ∧ st.last_threshold = 0 from ⟨hle, h2⟩)]
        dsimp only
        rw [if_pos h3,
          if_pos (show m ≤ current ∧ st.last_threshold = 0 ∧ m ≠ 0 from ⟨hle, h2, h3⟩)]
    · rw [if_neg (show ¬(m ≤ current ∧ st.last_threshold = 0) from fun hh => h2 hh.2),
        if_neg (by tauto : ¬(m ≤ current ∧ st.last_threshold = 0 ∧ m ≠ 0))]

/-- The `last_threshold` written by `check_threshold` with a configured
threshold, in terms of the incoming state. -/
theorem check_threshold_last_threshold_eq (g : GameId) (current m : ℚ) (op : String)
    (now : ℕ) (st : GameState) :
    (check_threshold g current (some m) op now st).2.last_threshold =
      (if current < m then (if 0 < st.last_threshold then 0 else st.last_threshold)
       else if m ≤ current ∧ st.last_threshold = 0 ∧ m ≠ 0 then m
       else st.last_threshold) := by
  have hpres := (update_rollover_preserves g current now st).1
  unfold check_threshold
  dsimp only
  by_cases h1 : current < m
  · rw [if_pos h1, if_pos h1]
    split_ifs <;> simp [hpres]
  · have hle : m ≤ current := not_lt.mp h1
    rw [if_neg h1, if_neg h1]
    by_cases h2 : st.last_threshold = 0
    · by_cases h3 : m = 0
      · subst h3
        rw [if_neg (by tauto : ¬((0:ℚ) ≤ current ∧ st.last_threshold = 0 ∧ (0:ℚ) ≠ 0)),
          if_pos (show (0:ℚ) ≤ current ∧ st.last_threshold = 0 from ⟨hle, h2⟩)]
        dsimp only
        simp [hpres]
      · rw [if_pos (show m ≤ current ∧ st.last_threshold = 0 from ⟨hle, h2⟩)]
        dsimp only
        rw [if_pos h3,
          if_pos (show m ≤ current ∧ st.last_threshold = 0 ∧ m ≠ 0 from ⟨hle, h2, h3⟩)]
    · rw [if_neg (show ¬(m ≤ current ∧ st.last_threshold = 0) from fun hh => h2 hh.2),
        if_neg (by tauto : ¬(m ≤ current ∧ st.last_threshold = 0 ∧ m ≠ 0))]
      exact hpres

/-- The rollover-cycle fields written by `check_threshold` with a
configured threshold are exactly those of the rollover bookkeeping. -/
theorem check_threshold_rollover_fields_eq (g : GameId) (current m : ℚ) (op : String)
    (now : ℕ) (st : GameState) :
    (check_threshold g current (some m) op now st).2.rollover_count =
      (update_rollover g current now st).rollover_count ∧
    (check_threshold g current (some m) op now st).2.cycle_start_jackpot =
      (update_rollover g current now st).cycle_start_jackpot ∧
    (check_threshold g current (some m) op now st).2.last_won_date =
      (update_rollover g current now st).last_won_date := by
  unfold check_threshold
  dsimp only
  by_cases h1 : current < m
  · rw [if_pos h1]
    split_ifs <;> exact ⟨rfl, rfl, rfl⟩
  · have hle : m ≤ current := not_lt.mp h1
    rw [if_neg h1]
    by_cases h2 : st.last_threshold = 0
    · by_cases h3 : m = 0
      · subst h3
        rw [if_pos (show (0:ℚ) ≤ current ∧ st.last_threshold = 0 from ⟨hle, h2⟩)]
        dsimp only
        simp
      · rw [if_pos (show m ≤ current ∧ st.last_threshold = 0 from ⟨hle, h2⟩)]
        dsimp only
        rw [if_pos h3]
        exact ⟨rfl, rfl, rfl⟩
    · rw [if_neg (show ¬(m ≤ current ∧ st.last_threshold = 0) from fun hh => h2 hh.2)]
      exact ⟨rfl, rfl, rfl⟩

/-- On a reset-qualifying observation for Mega Millions (positive previous
jackpot, drop below half of it, at or below the 100,000,000 ceiling), the
rollover bookkeeping zeroes the count, re-baselines the cycle start, and
records the win date. -/
theorem update_rollover_mega_reset (current : ℚ) (now : ℕ) (st : GameState)
    (hcond : 0 < st.last_jackpot ∧ current < st.last_jackpot * (1/2) ∧
      current ≤ 100000000) :
    update_rollover GameId.mega_millions current now st =
      { st with
        rollover_count := 0
        cycle_start_jackpot := some current
        last_won_date := some now } := by
  unfold update_rollover
  rw [show reset_threshold GameId.mega_millions = 100000000 from rfl,
    if_pos (show (0:ℚ) < rollover_increment GameId.mega_millions by
      rw [show rollover_increment GameId.mega_millions = (2000000:ℚ) from rfl]
      norm_num),
    if_pos hcond]

/-- On a non-reset observation for Mega Millions the win date is
untouched. -/
theorem update_rollover_mega_noreset (current : ℚ) (now : ℕ) (st : GameState)
    (hcond : ¬(0 < st.last_jackpot ∧ current < st.last_jackpot * (1/2) ∧
      current ≤ 100000000)) :
    (update_rollover GameId.mega_millions current now st).last_won_date =
      st.last_won_date := by
  unfold update_rollover
  rw [show reset_threshold GameId.mega_millions = 100000000 from rfl,
    if_pos (show (0:ℚ) < rollover_increment GameId.mega_millions by
      rw [show rollover_increment GameId.mega_millions = (2000000:ℚ) from rfl]
      norm_num),
    if_neg hcond]
  cases hceq : st.cycle_start_jackpot with
  | none => rfl
  | some c =>
    dsimp only
    split_ifs <;> rfl

/-! ## Claim C4 -/

/-- Claim C4: for Mega Millions (reset ceiling 100,000,000), a jackpot
reset is detected by `check_threshold` exactly when the previously
recorded jackpot is positive, the current one is below half of it, and at
or below the ceiling (threshold_alert.py line 172) — observable as the
`last_won_date` stamp written only by the reset branch — and on reset the
state is updated to `rollover_count = 0` and
`cycle_start_jackpot = current`; in particular, with a recorded jackpot
of 20,000,000, observing 9,000,000 resets (rollover 0, cycle start
9,000,000) and observing 15,000,000 does not. -/
theorem threshold_reset_detection (st : GameState) (m : ℚ) (op : String) (now : ℕ)
    (hwon : st.last_won_date = none) :
    (∀ current : ℚ,
      ((check_threshold GameId.mega_millions current (some m) op now st).2.last_won_date
          = some now ↔
        (0 < st.last_jackpot ∧ current < st.last_jackpot * (1/2) ∧
          current ≤ 100000000)) ∧
      ((0 < st.last_jackpot ∧ current < st.last_jackpot * (1/2) ∧
          current ≤ 100000000) →
        (check_threshold GameId.mega_millions current (some m) op now st).2.rollover_count
            = 0 ∧
        (check_threshold GameId.mega_millions current (some m) op now st).2.cycle_start_jackpot
            = some current)) ∧
    (st.last_jackpot = 20000000 →
      ((check_threshold GameId.mega_millions 9000000 (some m) op now st).2.rollover_count
          = 0 ∧
       (check_threshold GameId.mega_millions 9000000 (some m) op now st).2.cycle_start_jackpot
          = some 9000000 ∧
       (check_threshold GameId.mega_millions 9000000 (some m) op now st).2.last_won_date
          = some now) ∧
      (check_threshold GameId.mega_millions 15000000 (some m) op now st).2.last_won_date
          = none) := by
  have main : ∀ current : ℚ,
      ((check_threshold GameId.mega_millions current (some m) op now st).2.last_won_date
          = some now ↔
        (0 < st.last_jackpot ∧ current < st.last_jackpot * (1/2) ∧
          current ≤ 100000000)) ∧
      ((0 < st.last_jackpot ∧ current < st.last_jackpot * (1/2) ∧
          current ≤ 100000000) →
        (check_threshold GameId.mega_millions current (some m) op now st).2.rollover_count
            = 0 ∧
        (check_threshold GameId.mega_millions current (some m) op now st).2.cycle_start_jackpot
            = some current) := by
    intro current
    obtain ⟨hr, hcy, hw⟩ :=
      check_threshold_rollover_fields_eq GameId.mega_millions current m op now st
    by_cases hcond : 0 < st.last_jackpot ∧ current < st.last_jackpot * (1/2) ∧
        current ≤ 100000000
    · have hreset := update_rollover_mega_reset current now st hcond
      refine ⟨?_, fun _ => ⟨?_, ?_⟩⟩
      · rw [hw, hreset]
        simpa using hcond
      · rw [hr, hreset]
      · rw [hcy, hreset]
    · have hnores := update_rollover_mega_noreset current now st hcond
      refine ⟨?_, fun hc => absurd hc hcond⟩
      rw [hw, hnores, hwon]
      exact ⟨fun h => absurd h (by simp), fun hc => absurd hc hcond⟩
  refine ⟨main, fun hlast => ⟨⟨?_, ?_, ?_⟩, ?_⟩⟩
  · exact ((main 9000000).2 (by rw [hlast]; norm_num)).1
  · exact ((main 9000000).2 (by rw [hlast]; norm_num)).2
  · exact (main 9000000).1.mpr (by rw [hlast]; norm_num)
  · have h15 := (main 15000000).1
    rcases hopt : (check_threshold GameId.mega_millions 15000000 (some m) op now
        st).2.last_won_date with _ | d
    · rfl
    · exfalso
      obtain ⟨-, -, hw15⟩ :=
        check_threshold_rollover_fields_eq GameId.mega_millions 15000000 m op now st
      have := update_rollover_mega_noreset 15000000 now st (by
        rw [hlast]
        intro hc
        norm_num at hc)
      rw [hw15, this, hwon] at hopt
      exact Option.noConfusion hopt

/-- Witness for `threshold_reset_detection` at a concrete state with
`last_jackpot = 20,000,000`. -/
theorem threshold_reset_detection_witness :
    (GameState.last_won_date
        { fresh_game_state with last_jackpot := 20000000 } = none) ∧
    (GameState.last_jackpot
        { fresh_game_state with last_jackpot := 20000000 } = 20000000) ∧
    ((check_threshold GameId.mega_millions 9000000 (some 500) ">=" 42
        { fresh_game_state with last_jackpot := 20000000 }).2.rollover_count = 0 ∧
     (check_threshold GameId.mega_millions 9000000 (some 500) ">=" 42
        { fresh_game_state with last_jackpot := 20000000 }).2.cycle_start_jackpot
        = some 9000000 ∧
     (check_threshold GameId.mega_millions 9000000 (some 500) ">=" 42
        { fresh_game_state with last_jackpot := 20000000 }).2.last_won_date = some 42) ∧
    (check_threshold GameId.mega_millions 15000000 (some 500) ">=" 42
        { fresh_game_state with last_jackpot := 20000000 }).2.last_won_date = none := by
  refine ⟨rfl, rfl, ?_, ?_⟩
  · exact ((threshold_reset_detection
      { fresh_game_state with last_jackpot := 20000000 } 500 ">=" 42 rfl).2 rfl).1
  · exact ((threshold_reset_detection
      { fresh_game_state with last_jackpot := 20000000 } 500 ">=" 42 rfl).2 rfl).2

/-! ## Claim C3 -/

/-- Claim C3: `check_threshold` emits at most one alert per
above-threshold run.  For a configured positive threshold `m` and a
nonnegative recorded `last_threshold`: an alert is returned exactly when
the jackpot reaches `m` while `last_threshold = 0`; no alert is returned
while `last_threshold > 0`; and the updated `last_threshold` is 0 exactly
when the jackpot is below `m`.  Consequently the observation sequence
[400k, 600k, 700k, 300k, 600k] against a 500k threshold fires exactly at
the second and fifth observations. -/
theorem threshold_single_fire (g : GameId) (m : ℚ) (op : String) (now : ℕ)
    (st : GameState) (current : ℚ) (hm : 0 < m) (hlt : 0 ≤ st.last_threshold) :
    ((check_threshold g current (some m) op now st).1.isSome =
      (decide (m ≤ current) && decide (st.last_threshold = 0))) ∧
    ((check_threshold g current (some m) op now st).2.last_threshold = 0 ↔
      current < m) ∧
    (check_threshold_run GameId.lucky_day_lotto_midday (some 500000) ">=" 0
        [400000, 600000, 700000, 300000, 600000] fresh_game_state =
      [false, true, false, false, true]) := by
  refine ⟨?_, ?_, ?_⟩
  · rw [check_threshold_alert_eq]
    by_cases h1 : m ≤ current <;> by_cases h2 : st.last_threshold = 0 <;>
      simp [h1, h2, ne_of_gt hm]
  · rw [check_threshold_last_threshold_eq]
    by_cases h1 : current < m
    · rw [if_pos h1]
      by_cases h2 : 0 < st.last_threshold
      · simp [h2, h1]
      · have : st.last_threshold = 0 := le_antisymm (not_lt.mp h2) hlt
        simp [h2, h1, this]
    · have hle : m ≤ current := not_lt.mp h1
      rw [if_neg h1]
      by_cases h2 : st.last_threshold = 0
      · rw [if_pos ⟨hle, h2, ne_of_gt hm⟩]
        simp [h1, ne_of_gt hm]
      · rw [if_neg (by tauto : ¬(m ≤ current ∧ st.last_threshold = 0 ∧ m ≠ 0))]
        simp [h1, h2]
  · have e1 : check_threshold GameId.lucky_day_lotto_midday 400000 (some 500000) ">=" 0
        fresh_game_state =
        (none, ⟨400000, some 0, 0, none, [], some 400000, 0, none⟩) := by
      norm_num [check_threshold, update_rollover, rollover_increment, reset_threshold,
        fresh_game_state, reduceCtorEq]
    have e2 : check_threshold GameId.lucky_day_lotto_midday 600000 (some 500000) ">=" 0
        (⟨400000, some 0, 0, none, [], some 400000, 0, none⟩ : GameState) =
        (some ⟨GameId.lucky_day_lotto_midday, 600000, 500000, 400000, 0⟩,
          ⟨600000, some 400000, 500000, some 0, [(500000, 600000, 0)],
            some 400000, 4, none⟩) := by
      norm_num [check_threshold, update_rollover, rollover_increment, reset_threshold,
        reduceCtorEq]
    have e3 : check_threshold GameId.lucky_day_lotto_midday 700000 (some 500000) ">=" 0
        (⟨600000, some 400000, 500000, some 0, [(500000, 600000, 0)],
          some 400000, 4, none⟩ : GameState) =
        (none, ⟨700000, some 600000, 500000, some 0, [(500000, 600000, 0)],
          some 400000, 6, none⟩) := by
      norm_num [check_threshold, update_rollover, rollover_increment, reset_threshold,
        reduceCtorEq]
    have e4 : check_threshold GameId.lucky_day_lotto_midday 300000 (some 500000) ">=" 0
        (⟨700000, some 600000, 500000, some 0, [(500000, 600000, 0)],
          some 400000, 6, none⟩ : GameState) =
        (none, ⟨300000, some 700000, 0, some 0, [(500000, 600000, 0)],
          some 300000, 0, none⟩) := by
      norm_num [check_threshold, update_rollover, rollover_increment, reset_threshold,
        reduceCtorEq]
    have e5 : check_threshold GameId.lucky_day_lotto_midday 600000 (some 500000) ">=" 0
        (⟨300000, some 700000, 0, some 0, [(500000, 600000, 0)],
          some 300000, 0, none⟩ : GameState) =
        (some ⟨GameId.lucky_day_lotto_midday, 600000, 500000, 300000, 0⟩,
          ⟨600000, some 300000, 500000, some 0,
            [(500000, 600000, 0), (500000, 600000, 0)], some 300000, 6, none⟩) := by
      norm_num [check_threshold, update_rollover, rollover_increment, reset_threshold,
        reduceCtorEq]
    simp only [check_threshold_run, e1, e2, e3, e4, e5]
    rfl

/-- Witness for `threshold_single_fire` at a concrete input: a fresh
state, threshold 500,000 and observation 600,000. -/
theorem threshold_single_fire_witness :
    (0 : ℚ) < 500000 ∧ (0 : ℚ) ≤ fresh_game_state.last_threshold ∧
    ((check_threshold GameId.lucky_day_lotto_midday 600000 (some 500000) ">=" 7
        fresh_game_state).1.isSome =
      (decide ((500000 : ℚ) ≤ 600000) && decide (fresh_game_state.last_threshold = 0))) ∧
    ((check_threshold GameId.lucky_day_lotto_midday 600000 (some 500000) ">=" 7
        fresh_game_state).2.last_threshold = 0 ↔ (600000 : ℚ) < 500000) := by
  obtain ⟨p1, p2, -⟩ := threshold_single_fire GameId.lucky_day_lotto_midday 500000 ">=" 7
    fresh_game_state 600000 (by norm_num) (by norm_num [fresh_game_state])
  exact ⟨by norm_num, by norm_num [fresh_game_state], p1, p2⟩

/-! ## Claim C7 -/

/-- Claim C7 (the source is wrong here, against its own docstring at
threshold_alert.py line 105 and the repository's own
verify_threshold_system.py, which implements `>` vs `>=` semantics):
`check_threshold` accepts the `threshold_operator` parameter but never
reads it — the crossing comparison is hard-coded `>=` at line 229.  With
operator ">" and the jackpot exactly equal to `min_threshold`, an alert
IS emitted (where the documented strict comparison would emit none), and
the result is identical for every operator string. -/
theorem threshold_operator_ignored (op : String) (now : ℕ) :
    ((check_threshold GameId.lotto 500000 (some 500000) op now
        fresh_game_state).1.isSome = true) ∧
    check_threshold GameId.lotto 500000 (some 500000) op now fresh_game_state =
      check_threshold GameId.lotto 500000 (some 500000) ">=" now fresh_game_state := by
  constructor
  · rw [check_threshold_alert_eq]
    norm_num [fresh_game_state]
  · rfl

/-! ## Claim C10 -/

/-- Claim C10: when `min_threshold` is `None` for a game,
`check_threshold` returns no alert and mutates only `last_jackpot` (and
`previous_jackpot`, which becomes the old `last_jackpot` only when the
new observation differs from it); `last_threshold`, `thresholds_hit`,
`last_alert_time`, `rollover_count` and `cycle_start_jackpot` (and the
win date) are untouched, so rollover tracking is not performed for
threshold-less games. -/
theorem threshold_none_inert (g : GameId) (current : ℚ) (op : String) (now : ℕ)
    (st : GameState) :
    (check_threshold g current none op now st).1 = none ∧
    (check_threshold g current none op now st).2 =
      { st with
        previous_jackpot :=
          if st.last_jackpot ≠ current then some st.last_jackpot
          else st.previous_jackpot
        last_jackpot := current } ∧
    (check_threshold g current none op now st).2.last_threshold = st.last_threshold ∧
    (check_threshold g current none op now st).2.thresholds_hit = st.thresholds_hit ∧
    (check_threshold g current none op now st).2.last_alert_time = st.last_alert_time ∧
    (check_threshold g current none op now st).2.rollover_count = st.rollover_count ∧
    (check_threshold g current none op now st).2.cycle_start_jackpot =
      st.cycle_start_jackpot ∧
    (check_threshold g current none op now st).2.last_won_date = st.last_won_date :=
  ⟨rfl, rfl, rfl, rfl, rfl, rfl, rfl, rfl⟩
